import Mathlib

/-
Shallow embedding of the civic issue-reporting backend
(src/backend/app.py and src/backend/models.py) and proofs about its
issue lifecycle and geospatial query operations.

Modelling conventions:
  - Database rows become Lean structures; surrogate primary keys of
    IssueImage and StatusLog, timestamps, emails and password hashes are
    omitted because no verified property mentions them.
  - Python floats for coordinates, radii and distances are modelled as
    rationals (Rat); the external geodesic distance function from geopy
    and the Python float parser are passed in as parameters, since they
    are library code outside this repository.
  - Each Flask handler becomes a pure function taking the database and
    the request data, returning the resulting database paired with the
    HTTP outcome (an Except value).  An error outcome returns the
    database that was durably committed at that point.
  - SQLAlchemy semantics that matter are modelled explicitly: the
    relationships declared in models.py lines 41-43 carry no delete
    cascade, so session.delete on an issue dissociates its children by
    setting their foreign key to NULL rather than deleting them; and in
    report_issue the first db.session.commit makes the issue row durable
    before images and the initial log are added, so a later exception
    plus rollback only discards the uncommitted rows.
-/

namespace CivicTrack

/-- Outcome of a request other than a successful payload: 404 from
get_or_404, 403 from the admin and ownership checks, 400 with a message,
or an unhandled Python exception (500). -/
inductive ApiErr where
  | notFound
  | forbidden
  | badRequest (msg : String)
  | crash
deriving Repr, DecidableEq

instance {ε α : Type} [DecidableEq ε] [DecidableEq α] :
    DecidableEq (Except ε α) := fun a b =>
  match a, b with
  | .ok x, .ok y => decidable_of_iff (x = y) (by simp)
  | .error e, .error f => decidable_of_iff (e = f) (by simp)
  | .ok _, .error _ => isFalse (by simp)
  | .error _, .ok _ => isFalse (by simp)

/-- Row of the users table (models.py lines 8-24); email, password hash
and created_at are omitted. -/
structure User where
  id : Nat
  username : String
  is_admin : Bool
deriving Repr, DecidableEq

/-- Row of the issues table (models.py lines 26-43); created_at omitted.
Status is kept as the literal string the code stores: one of
"Reported", "In Progress", "Resolved", "Flagged". -/
structure Issue where
  id : Nat
  title : String
  description : String
  category : String
  latitude : Rat
  longitude : Rat
  status : String
  user_id : Nat
  is_anonymous : Bool
  upvotes : Nat
  flags : Nat
deriving Repr, DecidableEq

/-- Row of the issue_images table (models.py lines 45-49).  The foreign
key issue_id is nullable, which is what lets a delete without cascade
leave the row behind with issue_id set to NULL. -/
structure IssueImage where
  filename : String
  issue_id : Option Nat
deriving Repr, DecidableEq

/-- Row of the status_logs table (models.py lines 51-59); timestamp
omitted.  admin_id is NULL for the initial Reported entry and for
auto-flag entries. -/
structure StatusLog where
  issue_id : Option Nat
  status : String
  admin_id : Option Nat
deriving Repr, DecidableEq

/-- The relational store backing the application. -/
structure DB where
  users : List User
  issues : List Issue
  images : List IssueImage
  logs : List StatusLog
deriving Repr, DecidableEq

/-- User.query.get: first user row with the given primary key. -/
def DB.getUser (db : DB) (uid : Nat) : Option User :=
  db.users.find? (fun u => u.id == uid)

/-- Issue.query.get: first issue row with the given primary key. -/
def DB.getIssue (db : DB) (iid : Nat) : Option Issue :=
  db.issues.find? (fun i => i.id == iid)

/-- Writing a mutated issue row back: every row with the same id is
replaced (ids are unique in any real database state, so this is the
ORM flush of the single mutated row). -/
def DB.setIssue (db : DB) (i : Issue) : DB :=
  { db with issues := db.issues.map (fun j => if j.id == i.id then i else j) }

/-- Autoincrement primary key for a newly inserted issue. -/
def DB.freshIssueId (db : DB) : Nat :=
  (db.issues.map Issue.id).foldr max 0 + 1

/-- Number of StatusLog rows for the given issue that carry the given
status value. -/
def DB.countLogs (db : DB) (iid : Nat) (s : String) : Nat :=
  (db.logs.filter (fun l => l.issue_id == some iid && l.status == s)).length

/-- The auto-hide invariant claimed by the spec: any stored issue with
at least 5 flags has status Flagged. -/
def flagInv (db : DB) : Prop :=
  ∀ i ∈ db.issues, 5 ≤ i.flags → i.status = "Flagged"

instance (db : DB) : Decidable (flagInv db) := by
  unfold flagInv; infer_instance

/-- Embeds is_within_radius (app.py lines 26-27).  The geopy geodesic
distance is the parameter dist, taking the two points as four
coordinates and returning kilometers; the comparison is inclusive. -/
def is_within_radius (dist : Rat → Rat → Rat → Rat → Rat)
    (user_lat user_lon issue_lat issue_lon radius_km : Rat) : Bool :=
  dist user_lat user_lon issue_lat issue_lon ≤ radius_km

/-- Query parameters of GET /api/issues as they arrive from Flask:
request.args.get returns the raw string, or none when the parameter is
absent. -/
structure QueryArgs where
  lat : Option String
  lon : Option String
  radius : Option String
  category : Option String
  status : Option String
deriving Repr, DecidableEq

/-- Embeds get_issues (app.py lines 96-123).  parse is the Python float
constructor: none models both TypeError on a missing value and
ValueError on an unparseable one, which is exactly what the
try/except around the lat/lon conversion catches.  The radius
conversion on line 105 sits outside that try block, so a present but
unparseable radius string raises an unhandled ValueError, modelled as
crash.  The category and status filters use Python truthiness: a
missing or empty string value applies no filter. -/
def matchesFilters (args : QueryArgs) (i : Issue) : Bool :=
  (match args.category with
   | none => true
   | some c => c == "" || i.category == c) &&
  (match args.status with
   | none => true
   | some s => s == "" || i.status == s)

def get_issues (parse : String → Option Rat)
    (dist : Rat → Rat → Rat → Rat → Rat)
    (db : DB) (args : QueryArgs) : Except ApiErr (List Issue) :=
  match args.lat.bind parse, args.lon.bind parse with
  | some user_lat, some user_lon =>
    match (match args.radius with
           | none => some (5 : Rat)
           | some s => parse s) with
    | none => .error .crash
    | some radius =>
      let filtered := db.issues.filter (matchesFilters args)
      .ok (filtered.filter (fun i =>
        is_within_radius dist user_lat user_lon i.latitude i.longitude radius))
  | _, _ => .error (.badRequest "Invalid coordinates")

/-- Multipart form of POST /api/issues; each field is the raw string or
none when absent.  images holds the generated filenames of the uploads
that pass the allowed_file check (filename generation and file storage
are external side effects). -/
structure ReportForm where
  title : Option String
  description : Option String
  category : Option String
  latitude : Option String
  longitude : Option String
  is_anonymous : Option String
  images : List String
deriving Repr, DecidableEq

/-- Embeds report_issue (app.py lines 125-160).  Phase 1 builds the
Issue row: a missing required field raises KeyError and an unparseable
coordinate raises ValueError, both caught by the except clause with
nothing yet committed, so the database is unchanged.  The first
db.session.commit on line 142 then makes the issue row durable.
Phase 2 adds the image rows and the initial Reported log and commits
again; phase2Fails injects an exception anywhere in phase 2 (file save,
insert, or the second commit), after which db.session.rollback discards
only the uncommitted rows: the issue survives without images or log. -/
def newIssue (db : DB) (user_id : Nat) (t d c : String) (la lo : Rat)
    (anonRaw : Option String) : Issue :=
  { id := db.freshIssueId, title := t, description := d, category := c,
    latitude := la, longitude := lo, status := "Reported",
    user_id := user_id,
    is_anonymous := (anonRaw.getD "false").map Char.toLower == "true",
    upvotes := 0, flags := 0 }

def report_issue (parse : String → Option Rat) (db : DB) (user_id : Nat)
    (form : ReportForm) (phase2Fails : Bool) : DB × Except ApiErr Issue :=
  match form.title, form.description, form.category,
        form.latitude.bind parse, form.longitude.bind parse with
  | some t, some d, some c, some la, some lo =>
    let issue := newIssue db user_id t d c la lo form.is_anonymous
    let db1 := { db with issues := db.issues ++ [issue] }
    if phase2Fails then
      (db1, .error (.badRequest "exception"))
    else
      let db2 :=
        { db1 with
          images := db1.images ++ form.images.map
            (fun fn => { filename := fn, issue_id := some issue.id }),
          logs := db1.logs ++
            [{ issue_id := some issue.id, status := "Reported", admin_id := none }] }
      (db2, .ok issue)
  | _, _, _, _, _ => (db, .error (.badRequest "exception"))

/-- JSON body of PUT /api/issues/id: the three optional editable
fields. -/
structure EditData where
  title : Option String
  description : Option String
  category : Option String
deriving Repr, DecidableEq

/-- The field updates of update_issue (app.py lines 171-177): each
provided field overwrites the row field, nothing else is touched. -/
def applyEdit (issue : Issue) (data : EditData) : Issue :=
  let issue := match data.title with
    | some t => { issue with title := t }
    | none => issue
  let issue := match data.description with
    | some d => { issue with description := d }
    | none => issue
  match data.category with
    | some c => { issue with category := c }
    | none => issue

/-- Embeds update_issue (app.py lines 162-180).  The ownership check
mirrors the Python short-circuit: the admin lookup only runs when the
caller is not the owner, and a nonexistent caller row then raises
AttributeError (crash). -/
def update_issue (db : DB) (auth_user_id iid : Nat)
    (data : EditData) : DB × Except ApiErr Issue :=
  match db.getIssue iid with
  | none => (db, .error .notFound)
  | some issue =>
    if issue.user_id != auth_user_id then
      match db.getUser auth_user_id with
      | none => (db, .error .crash)
      | some u =>
        if !u.is_admin then (db, .error .forbidden)
        else (db.setIssue (applyEdit issue data), .ok (applyEdit issue data))
    else (db.setIssue (applyEdit issue data), .ok (applyEdit issue data))

/-- Embeds update_issue_status (app.py lines 182-200).  The admin check
runs before the issue lookup; a missing or invalid status string is a
400; on success the status is overwritten and one log row with the
acting admin is appended, in one commit. -/
def update_issue_status (db : DB) (auth_user_id iid : Nat)
    (new_status : Option String) : DB × Except ApiErr Issue :=
  match db.getUser auth_user_id with
  | none => (db, .error .crash)
  | some user =>
    if !user.is_admin then (db, .error .forbidden)
    else match db.getIssue iid with
    | none => (db, .error .notFound)
    | some issue =>
      match new_status with
      | none => (db, .error (.badRequest "Invalid status"))
      | some s =>
        if s ∈ (["Reported", "In Progress", "Resolved"] : List String) then
          let issue := { issue with status := s }
          ({ db.setIssue issue with
              logs := db.logs ++ [{ issue_id := some iid, status := s,
                                    admin_id := some user.id }] },
           .ok issue)
        else (db, .error (.badRequest "Invalid status"))

/-- Embeds upvote_issue (app.py lines 202-208): increment the counter
by one and return the new value.  The authenticated principal is not
used by the handler body, so it is not a parameter. -/
def upvote_issue (db : DB) (iid : Nat) : DB × Except ApiErr Nat :=
  match db.getIssue iid with
  | none => (db, .error .notFound)
  | some issue =>
    let issue := { issue with upvotes := issue.upvotes + 1 }
    (db.setIssue issue, .ok issue.upvotes)

/-- Embeds flag_issue (app.py lines 210-222): increment the counter,
and whenever the new count is at least 5 set the status to Flagged and
append a Flagged log with no admin.  There is no guard on the current
status, so every call at or past the threshold appends another log. -/
def flag_issue (db : DB) (iid : Nat) : DB × Except ApiErr Nat :=
  match db.getIssue iid with
  | none => (db, .error .notFound)
  | some issue =>
    let issue := { issue with flags := issue.flags + 1 }
    if 5 ≤ issue.flags then
      let issue := { issue with status := "Flagged" }
      ({ db.setIssue issue with
          logs := db.logs ++ [{ issue_id := some iid, status := "Flagged",
                                admin_id := none }] },
       .ok issue.flags)
    else (db.setIssue issue, .ok issue.flags)

/-- Embeds delete_issue (app.py lines 235-245) together with the
SQLAlchemy semantics of the relationships in models.py lines 41-43:
they declare no delete cascade, so session.delete on the issue removes
the issue row and dissociates its images and logs by nulling their
issue_id foreign key; the child rows themselves remain. -/
def delete_issue (db : DB) (auth_user_id iid : Nat) : DB × Except ApiErr Unit :=
  match db.getUser auth_user_id with
  | none => (db, .error .crash)
  | some user =>
    if !user.is_admin then (db, .error .forbidden)
    else match db.getIssue iid with
    | none => (db, .error .notFound)
    | some _ =>
      ({ db with
          issues := db.issues.filter (fun i => !(i.id == iid)),
          images := db.images.map (fun im =>
            if im.issue_id == some iid then { im with issue_id := none } else im),
          logs := db.logs.map (fun l =>
            if l.issue_id == some iid then { l with issue_id := none } else l) },
       .ok ())

/-- n successive calls of flag_issue on the same issue, stopping at the
first error. -/
def flagTimes (iid : Nat) : Nat → DB → Except ApiErr DB
  | 0, db => .ok db
  | n + 1, db =>
    match flag_issue db iid with
    | (db1, .ok _) => flagTimes iid n db1
    | (_, .error e) => .error e

/-- n successive calls of upvote_issue on the same issue, stopping at
the first error. -/
def upvoteTimes (iid : Nat) : Nat → DB → Except ApiErr DB
  | 0, db => .ok db
  | n + 1, db =>
    match upvote_issue db iid with
    | (db1, .ok _) => upvoteTimes iid n db1
    | (_, .error e) => .error e

/-
Concrete instances used by witnesses and counterexamples.
-/

/-- Stand-in for the Python float constructor on the handful of
literals the concrete instances use; every other string fails to parse,
as float does on non-numeric input. -/
def demoParse : String → Option Rat
  | "0" => some 0
  | "1" => some 1
  | "2" => some 2
  | "5" => some 5
  | "200" => some 200
  | _ => none

/-- Stand-in distance oracle for concrete instances: zero on identical
points, like the geodesic (which is all the abstract theorems assume
about the oracle), and 100 kilometers on distinct points, far outside
every radius the instances use. -/
def demoDist (la1 lo1 la2 lo2 : Rat) : Rat :=
  if la1 = la2 ∧ lo1 = lo2 then 0 else 100

def alice : User := { id := 1, username := "alice", is_admin := false }

def bob : User := { id := 2, username := "bob", is_admin := false }

def rootAdmin : User := { id := 3, username := "root", is_admin := true }

def pothole : Issue :=
  { id := 1, title := "Pothole", description := "Deep pothole",
    category := "pothole", latitude := 0, longitude := 0,
    status := "Reported", user_id := 1, is_anonymous := false,
    upvotes := 0, flags := 0 }

def demoDB : DB :=
  { users := [alice, bob, rootAdmin],
    issues := [pothole],
    images := [{ filename := "a.png", issue_id := some 1 }],
    logs := [{ issue_id := some 1, status := "Reported", admin_id := none }] }

def flaggedIssue : Issue :=
  { pothole with id := 2, status := "Flagged", flags := 5 }

def flaggedDB : DB := { demoDB with issues := [pothole, flaggedIssue] }

def fiveFlagsDB : DB :=
  match flagTimes 1 5 demoDB with
  | .ok d => d
  | .error _ => demoDB

def sixFlagsDB : DB :=
  match flagTimes 1 6 demoDB with
  | .ok d => d
  | .error _ => demoDB

def resolvedAfterFlagsDB : DB :=
  (update_issue_status fiveFlagsDB 3 1 (some "Resolved")).1

def reportForm : ReportForm :=
  { title := some "Tree down", description := some "Across the road",
    category := some "hazard", latitude := some "1", longitude := some "2",
    is_anonymous := none, images := ["i.png"] }

def badForm : ReportForm :=
  { title := some "", description := some "", category := some "",
    latitude := some "200", longitude := some "0",
    is_anonymous := none, images := [] }

/-
Helper lemmas about the store.
-/

lemma getIssue_id_eq {db : DB} {iid : Nat} {issue : Issue}
    (h : db.getIssue iid = some issue) : issue.id = iid := by
  have := List.find?_some h
  simpa using this

lemma getIssue_mem {db : DB} {iid : Nat} {issue : Issue}
    (h : db.getIssue iid = some issue) : issue ∈ db.issues :=
  List.mem_of_find?_eq_some h

lemma getUser_id_eq {db : DB} {uid : Nat} {u : User}
    (h : db.getUser uid = some u) : u.id = uid := by
  have := List.find?_some h
  simpa using this

lemma find?_map_update (l : List Issue) (i : Issue) (iid : Nat)
    (hid : i.id = iid) (h : (l.find? (fun x => x.id == iid)).isSome) :
    (l.map (fun j => if j.id == i.id then i else j)).find?
      (fun x => x.id == iid) = some i := by
  induction l with
  | nil => simp at h
  | cons j rest ih =>
    by_cases hj : j.id = iid
    · simp [List.find?, hid, hj]
    · have hj2 : (j.id == iid) = false := by simp [hj]
      have hj3 : (j.id == i.id) = false := by simp [hid, hj]
      have h2 : (rest.find? (fun x => x.id == iid)).isSome := by
        simpa [List.find?, hj2] using h
      rw [List.map_cons, List.find?_cons_of_neg]
      · exact ih h2
      · simp [hj3, hj2]

/-- Looking up the id just written by setIssue returns the written row,
provided some row with that id existed. -/
lemma getIssue_setIssue {db : DB} {iid : Nat} {i0 : Issue} (i : Issue)
    (h : db.getIssue iid = some i0) (hid : i.id = iid) :
    (db.setIssue i).getIssue iid = some i := by
  have hs : (db.issues.find? (fun x => x.id == iid)).isSome := by
    simp [DB.getIssue] at h; simp [h]
  simpa [DB.setIssue, DB.getIssue] using find?_map_update db.issues i iid hid hs

/-- Writing twice to the same id is the same as writing the second row. -/
lemma setIssue_setIssue (db : DB) (i1 i2 : Issue) (h : i1.id = i2.id) :
    (db.setIssue i1).setIssue i2 = db.setIssue i2 := by
  simp only [DB.setIssue, List.map_map]
  congr 1
  apply List.map_congr_left
  intro j _
  by_cases hj : j.id = i2.id
  · simp [Function.comp, hj, h]
  · have hj1 : (j.id == i1.id) = false := by simp [h, hj]
    have hj2 : (j.id == i2.id) = false := by simp [hj]
    simp [Function.comp, hj1, hj2]

@[simp] lemma getIssue_withLogs (db : DB) (ls : List StatusLog) (iid : Nat) :
    DB.getIssue { db with logs := ls } iid = db.getIssue iid := rfl

@[simp] lemma countLogs_setIssue (db : DB) (i : Issue) (iid : Nat) (s : String) :
    (db.setIssue i).countLogs iid s = db.countLogs iid s := rfl

lemma countLogs_append_match (db : DB) (iid : Nat) (s : String)
    (aid : Option Nat) :
    DB.countLogs { db with logs := db.logs ++
        [{ issue_id := some iid, status := s, admin_id := aid }] } iid s =
      db.countLogs iid s + 1 := by
  simp [DB.countLogs, List.filter_append]

/-
Single-step characterizations of the mutating operations.
-/

lemma flag_issue_low {db : DB} {iid : Nat} {issue : Issue}
    (h : db.getIssue iid = some issue) (hlow : issue.flags + 1 < 5) :
    flag_issue db iid =
      (db.setIssue { issue with flags := issue.flags + 1 },
       .ok (issue.flags + 1)) := by
  have : ¬ 5 ≤ issue.flags + 1 := by omega
  simp [flag_issue, h, this]

lemma flag_issue_high {db : DB} {iid : Nat} {issue : Issue}
    (h : db.getIssue iid = some issue) (hhigh : 5 ≤ issue.flags + 1) :
    flag_issue db iid =
      ({ db.setIssue { issue with flags := issue.flags + 1, status := "Flagged" } with
          logs := db.logs ++ [{ issue_id := some iid, status := "Flagged",
                                admin_id := none }] },
       .ok (issue.flags + 1)) := by
  simp [flag_issue, h, hhigh]

lemma flagTimes_succ (iid : Nat) (n : Nat) (db db1 : DB) (k : Nat)
    (h : flag_issue db iid = (db1, .ok k)) :
    flagTimes iid (n + 1) db = flagTimes iid n db1 := by
  simp [flagTimes, h]

lemma upvote_issue_eq {db : DB} {iid : Nat} {issue : Issue}
    (h : db.getIssue iid = some issue) :
    upvote_issue db iid =
      (db.setIssue { issue with upvotes := issue.upvotes + 1 },
       .ok (issue.upvotes + 1)) := by
  simp [upvote_issue, h]

lemma upvoteTimes_spec (iid : Nat) (n : Nat) (db : DB) (issue : Issue)
    (h : db.getIssue iid = some issue) :
    ∃ dbN, upvoteTimes iid n db = .ok dbN ∧
      dbN.getIssue iid = some { issue with upvotes := issue.upvotes + n } := by
  induction n generalizing db issue with
  | zero => exact ⟨db, rfl, by simpa using h⟩
  | succ n ih =>
    have hstep := upvote_issue_eq h
    have hid : Issue.id { issue with upvotes := issue.upvotes + 1 } = iid := by
      simpa using getIssue_id_eq h
    have hget := getIssue_setIssue { issue with upvotes := issue.upvotes + 1 } h hid
    obtain ⟨dbN, hrun, hfin⟩ := ih _ _ hget
    refine ⟨dbN, ?_, ?_⟩
    · simp [upvoteTimes, hstep, hrun]
    · simpa [Nat.add_assoc, Nat.add_comm 1 n] using hfin

/-
Shared characterization lemmas for the query and create operations.
-/

lemma get_issues_400_iff (parse : String → Option Rat)
    (dist : Rat → Rat → Rat → Rat → Rat) (db : DB) (args : QueryArgs) :
    get_issues parse dist db args = .error (.badRequest "Invalid coordinates") ↔
      args.lat.bind parse = none ∨ args.lon.bind parse = none := by
  cases hla : args.lat.bind parse with
  | none => simp [get_issues, hla]
  | some la =>
    cases hlo : args.lon.bind parse with
    | none => simp [get_issues, hla, hlo]
    | some lo =>
      cases hrad : args.radius with
      | none => simp [get_issues, hla, hlo, hrad]
      | some s =>
        cases hps : parse s with
        | none => simp [get_issues, hla, hlo, hrad, hps]
        | some r => simp [get_issues, hla, hlo, hrad, hps]

lemma get_issues_radius_crash (parse : String → Option Rat)
    (dist : Rat → Rat → Rat → Rat → Rat) (db : DB) (args : QueryArgs)
    (la lo : Rat) (s : String)
    (hla : args.lat.bind parse = some la) (hlo : args.lon.bind parse = some lo)
    (hrs : args.radius = some s) (hps : parse s = none) :
    get_issues parse dist db args = .error .crash := by
  simp [get_issues, hla, hlo, hrs, hps]

lemma get_issues_ok (parse : String → Option Rat)
    (dist : Rat → Rat → Rat → Rat → Rat) (db : DB) (args : QueryArgs)
    (la lo radius : Rat)
    (hla : args.lat.bind parse = some la) (hlo : args.lon.bind parse = some lo)
    (hrad : (args.radius = none ∧ radius = 5) ∨
            (∃ s, args.radius = some s ∧ parse s = some radius)) :
    get_issues parse dist db args =
      .ok ((db.issues.filter (matchesFilters args)).filter (fun i =>
        is_within_radius dist la lo i.latitude i.longitude radius)) := by
  rcases hrad with ⟨hr, hv⟩ | ⟨s, hr, hv⟩
  · subst hv; simp [get_issues, hla, hlo, hr]
  · simp [get_issues, hla, hlo, hr, hv]

lemma report_issue_missing (parse : String → Option Rat) (db : DB) (uid : Nat)
    (form : ReportForm) (p2 : Bool)
    (h : form.title = none ∨ form.description = none ∨ form.category = none ∨
         form.latitude.bind parse = none ∨ form.longitude.bind parse = none) :
    report_issue parse db uid form p2 = (db, .error (.badRequest "exception")) := by
  unfold report_issue
  rcases h with h | h | h | h | h
  · simp [h]
  · cases ht : form.title <;> simp [ht, h]
  · cases ht : form.title <;> cases hd : form.description <;> simp [ht, hd, h]
  · cases ht : form.title <;> cases hd : form.description <;>
      cases hc : form.category <;> simp [ht, hd, hc, h]
  · cases ht : form.title <;> cases hd : form.description <;>
      cases hc : form.category <;> cases hla : form.latitude.bind parse <;>
      simp [ht, hd, hc, hla, h]

lemma report_issue_phase2_fail (parse : String → Option Rat) (db : DB)
    (uid : Nat) (form : ReportForm) (t d c : String) (la lo : Rat)
    (ht : form.title = some t) (hd : form.description = some d)
    (hc : form.category = some c) (hla : form.latitude.bind parse = some la)
    (hlo : form.longitude.bind parse = some lo) :
    report_issue parse db uid form true =
      ({ db with issues := db.issues ++ [newIssue db uid t d c la lo form.is_anonymous] },
       .error (.badRequest "exception")) := by
  simp [report_issue, ht, hd, hc, hla, hlo]

lemma report_issue_ok (parse : String → Option Rat) (db : DB)
    (uid : Nat) (form : ReportForm) (t d c : String) (la lo : Rat)
    (ht : form.title = some t) (hd : form.description = some d)
    (hc : form.category = some c) (hla : form.latitude.bind parse = some la)
    (hlo : form.longitude.bind parse = some lo) :
    report_issue parse db uid form false =
      ({ db with
          issues := db.issues ++ [newIssue db uid t d c la lo form.is_anonymous],
          images := db.images ++ form.images.map (fun fn =>
            { filename := fn, issue_id := some (newIssue db uid t d c la lo form.is_anonymous).id }),
          logs := db.logs ++
            [{ issue_id := some (newIssue db uid t d c la lo form.is_anonymous).id,
               status := "Reported", admin_id := none }] },
       .ok (newIssue db uid t d c la lo form.is_anonymous)) := by
  simp [report_issue, ht, hd, hc, hla, hlo]

/-
Lemmas about applyEdit and the auto-hide invariant.
-/

lemma applyEdit_frame (issue : Issue) (data : EditData) :
    (applyEdit issue data).id = issue.id ∧
    (applyEdit issue data).status = issue.status ∧
    (applyEdit issue data).upvotes = issue.upvotes ∧
    (applyEdit issue data).flags = issue.flags ∧
    (applyEdit issue data).latitude = issue.latitude ∧
    (applyEdit issue data).longitude = issue.longitude ∧
    (applyEdit issue data).user_id = issue.user_id ∧
    (applyEdit issue data).is_anonymous = issue.is_anonymous ∧
    (data.title = none → (applyEdit issue data).title = issue.title) ∧
    (data.description = none → (applyEdit issue data).description = issue.description) ∧
    (data.category = none → (applyEdit issue data).category = issue.category) := by
  rcases data with ⟨t, d, c⟩
  cases t <;> cases d <;> cases c <;> simp [applyEdit]

lemma flagInv_of_issues_eq (db1 db2 : DB) (h : db1.issues = db2.issues)
    (hinv : flagInv db1) : flagInv db2 := by
  intro i hi h5
  exact hinv i (h ▸ hi) h5

lemma flagInv_setIssue {db : DB} (i : Issue) (hinv : flagInv db)
    (hi : 5 ≤ i.flags → i.status = "Flagged") : flagInv (db.setIssue i) := by
  intro j hj h5
  rcases List.mem_map.mp hj with ⟨j0, hj0, hfj⟩
  by_cases hid : j0.id = i.id
  · have : j = i := by simpa [hid] using hfj.symm
    exact this ▸ hi (this ▸ h5)
  · have : j = j0 := by simpa [hid] using hfj.symm
    exact this ▸ hinv j0 hj0 (this ▸ h5)

/-
Lemmas about repeated flag calls.
-/

lemma flagTimes_add (iid m n : Nat) (db : DB) :
    flagTimes iid (m + n) db =
      match flagTimes iid m db with
      | .ok db1 => flagTimes iid n db1
      | .error e => .error e := by
  induction m generalizing db with
  | zero => simp [flagTimes]
  | succ m ih =>
    have hmn : m + 1 + n = (m + n) + 1 := by omega
    rw [hmn]
    cases hstep : flag_issue db iid with
    | mk db1 r =>
      cases r with
      | ok k => simp [flagTimes, hstep, ih]
      | error e => simp [flagTimes, hstep]

lemma flagTimes_low (iid k : Nat) (db : DB) (issue : Issue)
    (h : db.getIssue iid = some issue) (hk : issue.flags + k < 5) :
    ∃ dbk, flagTimes iid k db = .ok dbk ∧
      dbk.getIssue iid = some { issue with flags := issue.flags + k } ∧
      dbk.logs = db.logs := by
  induction k generalizing db issue with
  | zero => exact ⟨db, rfl, by simpa using h, rfl⟩
  | succ k ih =>
    have hlow : issue.flags + 1 < 5 := by omega
    have hstep := flag_issue_low h hlow
    have hid : Issue.id { issue with flags := issue.flags + 1 } = iid := by
      simpa using getIssue_id_eq h
    have hget := getIssue_setIssue { issue with flags := issue.flags + 1 } h hid
    have hk2 : Issue.flags { issue with flags := issue.flags + 1 } + k < 5 := by
      simp only []
      omega
    obtain ⟨dbk, hrun, hfin, hlogs⟩ := ih _ _ hget hk2
    refine ⟨dbk, ?_, ?_, ?_⟩
    · rw [flagTimes_succ iid k db _ _ hstep]
      exact hrun
    · simpa [Nat.add_assoc, Nat.add_comm 1 k] using hfin
    · rw [hlogs]; rfl

/-
Claim theorems.
-/

/-- C9: every upvote_issue call on an existing issue increments the
stored counter by exactly one and returns the new count, and n
successive calls on an issue that starts at zero upvotes leave the
stored count at n, with no per-user deduplication anywhere in the
handler (the principal is not even consulted). -/
theorem upvote_accumulates (db : DB) (iid : Nat) (issue : Issue) (n : Nat)
    (h : db.getIssue iid = some issue) (h0 : issue.upvotes = 0) :
    (∀ db0 i0, db0.getIssue iid = some i0 →
      upvote_issue db0 iid =
        (db0.setIssue { i0 with upvotes := i0.upvotes + 1 },
         .ok (i0.upvotes + 1))) ∧
    ∃ dbN, upvoteTimes iid n db = .ok dbN ∧
      (dbN.getIssue iid).map Issue.upvotes = some n := by
  refine ⟨fun db0 i0 h0 => upvote_issue_eq h0, ?_⟩
  obtain ⟨dbN, hrun, hfin⟩ := upvoteTimes_spec iid n db issue h
  exact ⟨dbN, hrun, by simp [hfin, h0]⟩

/-- Witness for C9 at the demo database: three upvotes on the fresh
demo issue leave the counter at three. -/
theorem upvote_accumulates_witness :
    demoDB.getIssue 1 = some pothole ∧ pothole.upvotes = 0 ∧
    (∃ dbN, upvoteTimes 1 3 demoDB = .ok dbN ∧
      (dbN.getIssue 1).map Issue.upvotes = some 3) :=
  ⟨rfl, rfl, (upvote_accumulates demoDB 1 pothole 3 rfl rfl).2⟩

/-- C10: the invalid-coordinates 400 branch of get_issues fires exactly
when the lat or lon parameter is missing or fails float parsing, and a
present but unparseable radius with parseable lat/lon instead raises an
unhandled exception, because the radius conversion sits outside the
try/except block. -/
theorem listing_400_branch_coverage (parse : String → Option Rat)
    (dist : Rat → Rat → Rat → Rat → Rat) (db : DB) (args : QueryArgs) :
    (get_issues parse dist db args = .error (.badRequest "Invalid coordinates") ↔
      args.lat.bind parse = none ∨ args.lon.bind parse = none) ∧
    (∀ la lo s, args.lat.bind parse = some la → args.lon.bind parse = some lo →
      args.radius = some s → parse s = none →
      get_issues parse dist db args = .error .crash) :=
  ⟨get_issues_400_iff parse dist db args,
   fun la lo s hla hlo hrs hps =>
     get_issues_radius_crash parse dist db args la lo s hla hlo hrs hps⟩

/-- Witness for C10: with lat and lon both "1" and the radius string
unparseable, the request is an unhandled exception, not the 400. -/
theorem listing_400_branch_coverage_witness :
    get_issues demoParse demoDist demoDB
      { lat := some "1", lon := some "1", radius := some "abc",
        category := none, status := none } = .error .crash :=
  (listing_400_branch_coverage demoParse demoDist demoDB
      { lat := some "1", lon := some "1", radius := some "abc",
        category := none, status := none }).2 1 1 "abc" rfl rfl rfl rfl

/-- C7: update_issue_status returns Forbidden for any non-admin caller;
for an admin a missing status or one outside Reported, In Progress,
Resolved (in particular Flagged) is a 400; an allowed status always
succeeds, with no condition on the current status, so it also moves an
issue out of Flagged, overwriting the status and appending exactly one
log row whose admin field is the acting admin. -/
theorem set_status_contract (db : DB) (uid iid : Nat) (caller : User)
    (issue : Issue) (s : Option String)
    (huser : db.getUser uid = some caller)
    (hissue : db.getIssue iid = some issue) :
    (caller.is_admin = false →
      update_issue_status db uid iid s = (db, .error .forbidden)) ∧
    (caller.is_admin = true →
      (s = none ∨ ∃ v, s = some v ∧
        v ∉ (["Reported", "In Progress", "Resolved"] : List String)) →
      update_issue_status db uid iid s = (db, .error (.badRequest "Invalid status"))) ∧
    (∀ v, caller.is_admin = true → s = some v →
      v ∈ (["Reported", "In Progress", "Resolved"] : List String) →
      update_issue_status db uid iid s =
        ({ db.setIssue { issue with status := v } with
            logs := db.logs ++ [{ issue_id := some iid, status := v,
                                  admin_id := some uid }] },
         .ok { issue with status := v })) := by
  have hcid : caller.id = uid := getUser_id_eq huser
  refine ⟨?_, ?_, ?_⟩
  · intro hna
    simp [update_issue_status, huser, hna]
  · rintro ha (hs | ⟨v, hs, hv⟩)
    · simp [update_issue_status, huser, ha, hissue, hs]
    · simp [update_issue_status, huser, ha, hissue, hs, hv]
  · intro v ha hs hv
    simp [update_issue_status, huser, ha, hissue, hs, hv, hcid]

/-- Witness for C7: the demo admin resolves the flagged demo issue,
which succeeds and appends one log row carrying the admin id. -/
theorem set_status_contract_witness :
    flaggedDB.getUser 3 = some rootAdmin ∧
    flaggedDB.getIssue 2 = some flaggedIssue ∧
    update_issue_status flaggedDB 3 2 (some "Resolved") =
      ({ flaggedDB.setIssue { flaggedIssue with status := "Resolved" } with
          logs := flaggedDB.logs ++ [{ issue_id := some 2, status := "Resolved",
                                       admin_id := some 3 }] },
       .ok { flaggedIssue with status := "Resolved" }) :=
  ⟨rfl, rfl,
   (set_status_contract flaggedDB 3 2 rootAdmin flaggedIssue (some "Resolved")
      rfl rfl).2.2 "Resolved" rfl rfl (by simp)⟩

/-- C8: update_issue by a caller who neither owns the issue nor is an
admin is Forbidden with the database returned unchanged; a successful
edit writes back exactly applyEdit of the stored issue, which touches
only the provided fields among title, description and category, leaving
status, counters, coordinates, owner, anonymity, images, logs and users
untouched. -/
theorem edit_auth_and_frame (db : DB) (uid iid : Nat) (caller : User)
    (issue : Issue) (data : EditData)
    (huser : db.getUser uid = some caller)
    (hissue : db.getIssue iid = some issue) :
    (issue.user_id ≠ uid → caller.is_admin = false →
      update_issue db uid iid data = (db, .error .forbidden)) ∧
    (∀ db2 i2, update_issue db uid iid data = (db2, .ok i2) →
      i2 = applyEdit issue data ∧
      db2 = db.setIssue (applyEdit issue data) ∧
      i2.id = issue.id ∧ i2.status = issue.status ∧
      i2.upvotes = issue.upvotes ∧ i2.flags = issue.flags ∧
      i2.latitude = issue.latitude ∧ i2.longitude = issue.longitude ∧
      i2.user_id = issue.user_id ∧ i2.is_anonymous = issue.is_anonymous ∧
      db2.images = db.images ∧ db2.logs = db.logs ∧ db2.users = db.users ∧
      (data.title = none → i2.title = issue.title) ∧
      (data.description = none → i2.description = issue.description) ∧
      (data.category = none → i2.category = issue.category)) := by
  constructor
  · intro hown hna
    simp [update_issue, hissue, hown, huser, hna]
  · intro db2 i2 heq
    have hok : db2 = db.setIssue (applyEdit issue data) ∧ i2 = applyEdit issue data := by
      by_cases hown : issue.user_id = uid
      · simp [update_issue, hissue, hown] at heq
        exact ⟨heq.1.symm, heq.2.symm⟩
      · by_cases ha : caller.is_admin
        · simp [update_issue, hissue, hown, huser, ha] at heq
          exact ⟨heq.1.symm, heq.2.symm⟩
        · simp [update_issue, hissue, hown, huser, ha] at heq
    obtain ⟨hdb2, hi2⟩ := hok
    obtain ⟨f1, f2, f3, f4, f5, f6, f7, f8, f9, f10, f11⟩ := applyEdit_frame issue data
    subst hdb2
    subst hi2
    exact ⟨rfl, rfl, f1, f2, f3, f4, f5, f6, f7, f8, rfl, rfl, rfl, f9, f10, f11⟩

/-- Witness for C8: the demo non-owner non-admin caller is refused and
the database comes back unchanged. -/
theorem edit_auth_and_frame_witness :
    demoDB.getUser 2 = some bob ∧ demoDB.getIssue 1 = some pothole ∧
    pothole.user_id ≠ 2 ∧ bob.is_admin = false ∧
    update_issue demoDB 2 1 { title := some "x", description := none,
                              category := none } = (demoDB, .error .forbidden) :=
  ⟨rfl, rfl, by decide, rfl,
   (edit_auth_and_frame demoDB 2 1 bob pothole
      { title := some "x", description := none, category := none }
      rfl rfl).1 (by decide) rfl⟩

lemma matchesFilters_iff (args : QueryArgs) (issue : Issue)
    (hcat : args.category ≠ some "") (hst : args.status ≠ some "") :
    matchesFilters args issue = true ↔
      ((∀ c, args.category = some c → issue.category = c) ∧
       (∀ s, args.status = some s → issue.status = s)) := by
  unfold matchesFilters
  cases hc : args.category with
  | none =>
    cases hs : args.status with
    | none => simp
    | some s =>
      have hne : ¬ s = "" := fun he => hst (by rw [hs, he])
      simp [hne]
  | some c =>
    have hnec : ¬ c = "" := fun he => hcat (by rw [hc, he])
    cases hs : args.status with
    | none => simp [hnec]
    | some s =>
      have hne : ¬ s = "" := fun he => hst (by rw [hs, he])
      simp [hnec, hne, and_comm]

/-- C6: for any distance oracle, a stored issue is in the get_issues
result exactly when its distance from the query center is at most the
radius (the comparison is inclusive, so distance exactly equal to the
radius passes) and it matches every present category and status filter;
with an oracle that is zero on identical points, an issue located
exactly at the center is returned whenever the radius is non-negative,
including radius zero.  A present filter is formalized as a non-empty
query value, since the code treats an empty string like an absent
parameter. -/
theorem listing_membership (parse : String → Option Rat)
    (dist : Rat → Rat → Rat → Rat → Rat) (db : DB) (args : QueryArgs)
    (la lo radius : Rat)
    (hla : args.lat.bind parse = some la)
    (hlo : args.lon.bind parse = some lo)
    (hrad : (args.radius = none ∧ radius = 5) ∨
            (∃ s, args.radius = some s ∧ parse s = some radius))
    (hcat : args.category ≠ some "") (hst : args.status ≠ some "") :
    ∃ res, get_issues parse dist db args = .ok res ∧
      (∀ issue ∈ db.issues, (issue ∈ res ↔
        (dist la lo issue.latitude issue.longitude ≤ radius ∧
         (∀ c, args.category = some c → issue.category = c) ∧
         (∀ s, args.status = some s → issue.status = s)))) ∧
      ((∀ x y, dist x y x y = 0) → 0 ≤ radius →
        ∀ issue ∈ db.issues, issue.latitude = la → issue.longitude = lo →
          (∀ c, args.category = some c → issue.category = c) →
          (∀ s, args.status = some s → issue.status = s) →
          issue ∈ res) := by
  refine ⟨_, get_issues_ok parse dist db args la lo radius hla hlo hrad, ?_, ?_⟩
  · intro issue hmem
    rw [List.mem_filter, List.mem_filter]
    constructor
    · rintro ⟨⟨_, hflt⟩, hrad2⟩
      have hm := (matchesFilters_iff args issue hcat hst).mp hflt
      refine ⟨?_, hm.1, hm.2⟩
      simpa [is_within_radius] using hrad2
    · rintro ⟨hdist, hmc, hms⟩
      refine ⟨⟨hmem, (matchesFilters_iff args issue hcat hst).mpr ⟨hmc, hms⟩⟩, ?_⟩
      simpa [is_within_radius] using hdist
  · intro hzero hr issue hmem heqla heqlo hmc hms
    rw [List.mem_filter, List.mem_filter]
    refine ⟨⟨hmem, (matchesFilters_iff args issue hcat hst).mpr ⟨hmc, hms⟩⟩, ?_⟩
    simp [is_within_radius, heqla, heqlo, hzero, hr]

/-- Witness for C6 at the demo database: the query centered on the demo
issue with the default radius returns a list containing it. -/
theorem listing_membership_witness :
    (({ lat := some "0", lon := some "0", radius := none, category := none,
        status := none } : QueryArgs).lat.bind demoParse = some 0) ∧
    (∃ res, get_issues demoParse demoDist demoDB
        { lat := some "0", lon := some "0", radius := none, category := none,
          status := none } = .ok res ∧
      (∀ issue ∈ demoDB.issues, (issue ∈ res ↔
        (demoDist 0 0 issue.latitude issue.longitude ≤ 5 ∧
         (∀ c, (none : Option String) = some c → issue.category = c) ∧
         (∀ s, (none : Option String) = some s → issue.status = s)))) ∧
      ((∀ x y : Rat, demoDist x y x y = 0) → (0:Rat) ≤ 5 →
        ∀ issue ∈ demoDB.issues, issue.latitude = 0 → issue.longitude = 0 →
          (∀ c, (none : Option String) = some c → issue.category = c) →
          (∀ s, (none : Option String) = some s → issue.status = s) →
          issue ∈ res)) :=
  ⟨rfl, listing_membership demoParse demoDist demoDB
      { lat := some "0", lon := some "0", radius := none, category := none,
        status := none } 0 0 5 rfl rfl (Or.inl ⟨rfl, rfl⟩)
      (by simp) (by simp)⟩

lemma countLogs_eq_of_logs_eq {db1 db2 : DB} (h : db1.logs = db2.logs)
    (iid : Nat) (s : String) : db1.countLogs iid s = db2.countLogs iid s := by
  unfold DB.countLogs
  rw [h]

/-- C1 counterexample: five flag calls on the fresh demo issue produce
one Flagged log row, but the sixth call appends a second one while
leaving the status Flagged: flag_issue has no guard on the current
status, so every call at or past the threshold appends another log. -/
theorem flag_sixth_call_cex :
    flagTimes 1 5 demoDB = .ok fiveFlagsDB ∧
    fiveFlagsDB.countLogs 1 "Flagged" = 1 ∧
    flagTimes 1 6 demoDB = .ok sixFlagsDB ∧
    (sixFlagsDB.getIssue 1).map Issue.status = some "Flagged" ∧
    sixFlagsDB.countLogs 1 "Flagged" = 2 :=
  ⟨rfl, rfl, rfl, rfl, rfl⟩

/-- C1 amended: on a fresh issue (zero flags, status Reported, no
Flagged log rows yet) five flag calls produce final status Flagged and
exactly one Flagged log row, as the claim states; but a sixth call,
while leaving the status Flagged, appends a second Flagged log row,
because the code has no guard on the current status. -/
theorem flag_threshold_logs (db : DB) (iid : Nat) (issue : Issue)
    (h : db.getIssue iid = some issue) (hflags : issue.flags = 0)
    (hstatus : issue.status = "Reported")
    (hlogs : db.countLogs iid "Flagged" = 0) :
    ∃ db5, flagTimes iid 5 db = .ok db5 ∧
      (db5.getIssue iid).map Issue.status = some "Flagged" ∧
      db5.countLogs iid "Flagged" = 1 ∧
      ∃ db6, flag_issue db5 iid = (db6, .ok 6) ∧
        (db6.getIssue iid).map Issue.status = some "Flagged" ∧
        db6.countLogs iid "Flagged" = 2 := by
  have hid : issue.id = iid := getIssue_id_eq h
  obtain ⟨db4, hrun4, hget4, hlogs4⟩ :=
    flagTimes_low iid 4 db issue h (by omega)
  set i4 : Issue := { issue with flags := issue.flags + 4 } with hi4
  have hcount4 : db4.countLogs iid "Flagged" = 0 := by
    rw [countLogs_eq_of_logs_eq hlogs4]
    exact hlogs
  have hfl4 : i4.flags = issue.flags + 4 := by rw [hi4]
  have hhigh5 : 5 ≤ i4.flags + 1 := by omega
  have hstep5 := flag_issue_high hget4 hhigh5
  set i5 : Issue := { i4 with flags := i4.flags + 1, status := "Flagged" } with hi5
  set log5 : StatusLog :=
    { issue_id := some iid, status := "Flagged", admin_id := none } with hlog5
  set db5 : DB := { db4.setIssue i5 with logs := db4.logs ++ [log5] } with hdb5
  have hrun5 : flagTimes iid 5 db = .ok db5 := by
    have h41 : (5 : Nat) = 4 + 1 := rfl
    rw [h41, flagTimes_add iid 4 1, hrun4]
    simp [flagTimes, hstep5]
  have hget5 : db5.getIssue iid = some i5 := by
    rw [hdb5]
    rw [getIssue_withLogs]
    exact getIssue_setIssue i5 hget4 (by simp [hi5, hi4, hid])
  have hcount5 : db5.countLogs iid "Flagged" = 1 := by
    rw [hdb5, hlog5]
    have h2 := countLogs_append_match (db4.setIssue i5) iid "Flagged" none
    rw [countLogs_setIssue, hcount4] at h2
    exact h2
  have hfl5 : i5.flags = i4.flags + 1 := by rw [hi5]
  have hflags5 : i5.flags = 5 := by omega
  have hhigh6 : 5 ≤ i5.flags + 1 := by omega
  have hstep6 := flag_issue_high hget5 hhigh6
  set i6 : Issue := { i5 with flags := i5.flags + 1, status := "Flagged" } with hi6
  set db6 : DB := { db5.setIssue i6 with logs := db5.logs ++ [log5] } with hdb6
  have hget6 : db6.getIssue iid = some i6 := by
    rw [hdb6, getIssue_withLogs]
    exact getIssue_setIssue i6 hget5 (by simp [hi6, hi5, hi4, hid])
  have hcount6 : db6.countLogs iid "Flagged" = 2 := by
    rw [hdb6, hlog5]
    have h2 := countLogs_append_match (db5.setIssue i6) iid "Flagged" none
    rw [countLogs_setIssue, hcount5] at h2
    exact h2
  refine ⟨db5, hrun5, ?_, hcount5, db6, ?_, ?_, hcount6⟩
  · rw [hget5]
    simp [hi5]
  · rw [hstep6, hflags5]
  · rw [hget6]
    simp [hi6]

/-- Witness for C1 amended at the demo database. -/
theorem flag_threshold_logs_witness :
    demoDB.getIssue 1 = some pothole ∧ pothole.flags = 0 ∧
    pothole.status = "Reported" ∧ demoDB.countLogs 1 "Flagged" = 0 ∧
    (∃ db5, flagTimes 1 5 demoDB = .ok db5 ∧
      (db5.getIssue 1).map Issue.status = some "Flagged" ∧
      db5.countLogs 1 "Flagged" = 1 ∧
      ∃ db6, flag_issue db5 1 = (db6, .ok 6) ∧
        (db6.getIssue 1).map Issue.status = some "Flagged" ∧
        db6.countLogs 1 "Flagged" = 2) :=
  ⟨rfl, rfl, rfl, rfl, flag_threshold_logs demoDB 1 pothole rfl rfl rfl rfl⟩

/-- C4 counterexample: five flags followed by an admin status update to
Resolved reach a state where the issue has 5 flags but status Resolved,
so the invariant as claimed over all six lifecycle operations fails:
update_issue_status can move an issue with at least five flags out of
Flagged. -/
theorem flag_invariant_cex :
    flagTimes 1 5 demoDB = .ok fiveFlagsDB ∧
    (update_issue_status fiveFlagsDB 3 1 (some "Resolved")).2 =
      .ok { pothole with flags := 5, status := "Resolved" } ∧
    (resolvedAfterFlagsDB.getIssue 1).map (fun i => (i.flags, i.status)) =
      some (5, "Resolved") ∧
    ¬ flagInv resolvedAfterFlagsDB :=
  ⟨rfl, rfl, rfl, by decide⟩

/-- C4 amended: the auto-hide invariant (flag count at least 5 implies
status Flagged) is preserved by create, edit, upvote, flag and delete;
it is not preserved by the admin status update, which can move an issue
with five or more flags out of Flagged, as the counterexample shows. -/
theorem flag_invariant_preserved (db : DB) (h : flagInv db) :
    (∀ parse uid form p2, flagInv (report_issue parse db uid form p2).1) ∧
    (∀ uid iid data, flagInv (update_issue db uid iid data).1) ∧
    (∀ iid, flagInv (upvote_issue db iid).1) ∧
    (∀ iid, flagInv (flag_issue db iid).1) ∧
    (∀ uid iid, flagInv (delete_issue db uid iid).1) := by
  refine ⟨?_, ?_, ?_, ?_, ?_⟩
  · intro parse uid form p2
    rcases ht : form.title with _ | t
    · rw [report_issue_missing parse db uid form p2 (Or.inl ht)]
      exact h
    rcases hd : form.description with _ | d
    · rw [report_issue_missing parse db uid form p2 (Or.inr (Or.inl hd))]
      exact h
    rcases hc : form.category with _ | c
    · rw [report_issue_missing parse db uid form p2 (Or.inr (Or.inr (Or.inl hc)))]
      exact h
    rcases hla : form.latitude.bind parse with _ | la
    · rw [report_issue_missing parse db uid form p2
          (Or.inr (Or.inr (Or.inr (Or.inl hla))))]
      exact h
    rcases hlo : form.longitude.bind parse with _ | lo
    · rw [report_issue_missing parse db uid form p2
          (Or.inr (Or.inr (Or.inr (Or.inr hlo))))]
      exact h
    have hfresh : ∀ i ∈ db.issues ++ [newIssue db uid t d c la lo form.is_anonymous],
        5 ≤ i.flags → i.status = "Flagged" := by
      intro i hi h5
      rcases List.mem_append.mp hi with h1 | h1
      · exact h i h1 h5
      · simp only [List.mem_singleton] at h1
        rw [h1] at h5
        simp [newIssue] at h5
    cases p2
    · rw [report_issue_ok parse db uid form t d c la lo ht hd hc hla hlo]
      exact hfresh
    · rw [report_issue_phase2_fail parse db uid form t d c la lo ht hd hc hla hlo]
      exact hfresh
  · intro uid iid data
    cases hi : db.getIssue iid with
    | none => simpa [update_issue, hi] using h
    | some issue =>
      obtain ⟨_, f2, _, f4, _⟩ := applyEdit_frame issue data
      have hgood : 5 ≤ (applyEdit issue data).flags →
          (applyEdit issue data).status = "Flagged" := by
        rw [f4, f2]
        exact h issue (getIssue_mem hi)
      by_cases hown : issue.user_id = uid
      · simpa [update_issue, hi, hown] using flagInv_setIssue _ h hgood
      · cases hu : db.getUser uid with
        | none => simpa [update_issue, hi, hown, hu] using h
        | some u =>
          by_cases ha : u.is_admin
          · simpa [update_issue, hi, hown, hu, ha] using flagInv_setIssue _ h hgood
          · simpa [update_issue, hi, hown, hu, ha] using h
  · intro iid
    cases hi : db.getIssue iid with
    | none => simpa [upvote_issue, hi] using h
    | some issue =>
      rw [upvote_issue_eq hi]
      exact flagInv_setIssue _ h
        (fun h5 => h issue (getIssue_mem hi) (by simpa using h5))
  · intro iid
    cases hi : db.getIssue iid with
    | none => simpa [flag_issue, hi] using h
    | some issue =>
      by_cases h5 : 5 ≤ issue.flags + 1
      · rw [flag_issue_high hi h5]
        exact flagInv_of_issues_eq
          (db.setIssue { issue with flags := issue.flags + 1, status := "Flagged" })
          _ rfl (flagInv_setIssue _ h (fun _ => rfl))
      · rw [flag_issue_low hi (by omega)]
        exact flagInv_setIssue _ h (fun hc => absurd hc (by simpa using h5))
  · intro uid iid
    cases hu : db.getUser uid with
    | none => simpa [delete_issue, hu] using h
    | some u =>
      by_cases ha : u.is_admin
      · cases hi : db.getIssue iid with
        | none => simpa [delete_issue, hu, ha, hi] using h
        | some issue =>
          simp only [delete_issue, hu, ha, hi]
          intro i hmem h5
          exact h i (List.mem_of_mem_filter hmem) h5
      · simpa [delete_issue, hu, ha] using h

/-- Witness for C4 amended: the invariant holds on the demo database
and is preserved by a flag call there. -/
theorem flag_invariant_preserved_witness :
    flagInv demoDB ∧ flagInv (flag_issue demoDB 1).1 :=
  ⟨by decide, (flag_invariant_preserved demoDB (by decide)).2.2.2.1 1⟩

/-- C2 counterexample: with an exception injected after the first
commit, report_issue returns an error yet the new issue row is already
durable, while its images and initial Reported log were rolled back:
the issue with id 2 exists with no Reported log row, which is exactly
the partial state the claim says can never be left behind. -/
theorem create_atomicity_cex :
    (report_issue demoParse demoDB 1 reportForm true).2 =
      .error (.badRequest "exception") ∧
    (report_issue demoParse demoDB 1 reportForm true).1.getIssue 2 =
      some (newIssue demoDB 1 "Tree down" "Across the road" "hazard" 1 2 none) ∧
    (report_issue demoParse demoDB 1 reportForm true).1.logs = demoDB.logs ∧
    (report_issue demoParse demoDB 1 reportForm true).1.images = demoDB.images ∧
    DB.countLogs (report_issue demoParse demoDB 1 reportForm true).1 2 "Reported"
      = 0 :=
  ⟨rfl, rfl, rfl, rfl, rfl⟩

/-- C2 amended: creation is two commits, not one atomic unit.  With the
required fields present and parseable, a persistence failure after the
first commit surfaces as an error while the issue row stays durable and
only the uncommitted image and log rows are rolled back, leaving an
issue without its initial Reported log; without a failure all three
groups of rows are written; and a failure before the first commit
(missing field or unparseable coordinate) leaves the database
unchanged.  The error also surfaces as a generic 400, not as a distinct
server-fault StorageError. -/
theorem create_two_commits (parse : String → Option Rat) (db : DB)
    (uid : Nat) (form : ReportForm) (t d c : String) (la lo : Rat)
    (ht : form.title = some t) (hd : form.description = some d)
    (hc : form.category = some c) (hla : form.latitude.bind parse = some la)
    (hlo : form.longitude.bind parse = some lo) :
    (report_issue parse db uid form true =
      ({ db with issues := db.issues ++
          [newIssue db uid t d c la lo form.is_anonymous] },
       .error (.badRequest "exception"))) ∧
    (report_issue parse db uid form false =
      ({ db with
          issues := db.issues ++ [newIssue db uid t d c la lo form.is_anonymous],
          images := db.images ++ form.images.map (fun fn =>
            { filename := fn,
              issue_id := some (newIssue db uid t d c la lo form.is_anonymous).id }),
          logs := db.logs ++
            [{ issue_id := some (newIssue db uid t d c la lo form.is_anonymous).id,
               status := "Reported", admin_id := none }] },
       .ok (newIssue db uid t d c la lo form.is_anonymous))) ∧
    (∀ form2 : ReportForm, ∀ p2, form2.title = none →
      report_issue parse db uid form2 p2 = (db, .error (.badRequest "exception"))) :=
  ⟨report_issue_phase2_fail parse db uid form t d c la lo ht hd hc hla hlo,
   report_issue_ok parse db uid form t d c la lo ht hd hc hla hlo,
   fun form2 p2 h2 => report_issue_missing parse db uid form2 p2 (Or.inl h2)⟩

/-- Witness for C2 amended at the demo database. -/
theorem create_two_commits_witness :
    reportForm.title = some "Tree down" ∧
    reportForm.latitude.bind demoParse = some 1 ∧
    report_issue demoParse demoDB 1 reportForm true =
      ({ demoDB with issues := demoDB.issues ++
          [newIssue demoDB 1 "Tree down" "Across the road" "hazard" 1 2 none] },
       .error (.badRequest "exception")) :=
  ⟨rfl, rfl,
   (create_two_commits demoParse demoDB 1 reportForm "Tree down"
      "Across the road" "hazard" 1 2 rfl rfl rfl rfl rfl).1⟩

/-- C3 counterexample: the admin delete removes the demo issue row, and
a later lookup of its id fails, but the image and log rows that
referenced it are not removed: they remain in their tables with the
foreign key nulled, because the relationships declare no delete
cascade. -/
theorem delete_cascade_cex :
    (delete_issue demoDB 3 1).2 = .ok () ∧
    (delete_issue demoDB 3 1).1.getIssue 1 = none ∧
    (delete_issue demoDB 3 1).1.images =
      [{ filename := "a.png", issue_id := none }] ∧
    (delete_issue demoDB 3 1).1.logs =
      [{ issue_id := none, status := "Reported", admin_id := none }] :=
  ⟨rfl, rfl, rfl, rfl⟩

/-- C3 amended: for every existing issue, the admin delete removes the
issue row, so a subsequent lookup fails; the image and log rows of the
issue are not deleted with it but dissociated: both tables keep their
full length, and no remaining row references the deleted id. -/
theorem delete_dissociates_children (db : DB) (uid iid : Nat)
    (admin : User) (issue : Issue)
    (hu : db.getUser uid = some admin) (ha : admin.is_admin = true)
    (hi : db.getIssue iid = some issue) :
    (delete_issue db uid iid).2 = .ok () ∧
    (delete_issue db uid iid).1.getIssue iid = none ∧
    (delete_issue db uid iid).1.images.length = db.images.length ∧
    (delete_issue db uid iid).1.logs.length = db.logs.length ∧
    (∀ im ∈ (delete_issue db uid iid).1.images, im.issue_id ≠ some iid) ∧
    (∀ l ∈ (delete_issue db uid iid).1.logs, l.issue_id ≠ some iid) := by
  have hres : delete_issue db uid iid =
      ({ db with
          issues := db.issues.filter (fun i => !(i.id == iid)),
          images := db.images.map (fun im =>
            if im.issue_id == some iid then { im with issue_id := none } else im),
          logs := db.logs.map (fun l =>
            if l.issue_id == some iid then { l with issue_id := none } else l) },
       .ok ()) := by
    simp [delete_issue, hu, ha, hi]
  rw [hres]
  refine ⟨rfl, ?_, by simp, by simp, ?_, ?_⟩
  · apply List.find?_eq_none.mpr
    intro x hx
    have := List.of_mem_filter hx
    simpa using this
  · intro im hmem
    rcases List.mem_map.mp hmem with ⟨im0, _, him⟩
    by_cases h0 : im0.issue_id = some iid
    · rw [← him]
      simp [h0]
    · rw [← him]
      simp [h0]
  · intro l hmem
    rcases List.mem_map.mp hmem with ⟨l0, _, hl⟩
    by_cases h0 : l0.issue_id = some iid
    · rw [← hl]
      simp [h0]
    · rw [← hl]
      simp [h0]

/-- Witness for C3 amended at the demo database. -/
theorem delete_dissociates_children_witness :
    demoDB.getUser 3 = some rootAdmin ∧ rootAdmin.is_admin = true ∧
    demoDB.getIssue 1 = some pothole ∧
    ((delete_issue demoDB 3 1).2 = .ok () ∧
     (delete_issue demoDB 3 1).1.getIssue 1 = none ∧
     (delete_issue demoDB 3 1).1.images.length = demoDB.images.length ∧
     (delete_issue demoDB 3 1).1.logs.length = demoDB.logs.length ∧
     (∀ im ∈ (delete_issue demoDB 3 1).1.images, im.issue_id ≠ some 1) ∧
     (∀ l ∈ (delete_issue demoDB 3 1).1.logs, l.issue_id ≠ some 1)) :=
  ⟨rfl, rfl, rfl, delete_dissociates_children demoDB 3 1 rootAdmin pothole rfl rfl rfl⟩

/-- C5 counterexample: creation with latitude 200, an empty title and
an empty category succeeds, storing the values as given, and the
listing called with lat=200 returns a result list instead of the 400
invalid-coordinates error: no range or emptiness validation exists on
either path. -/
theorem validation_gap_cex :
    (report_issue demoParse demoDB 1 badForm false).2 =
      .ok (newIssue demoDB 1 "" "" "" 200 0 none) ∧
    (newIssue demoDB 1 "" "" "" 200 0 none).latitude = 200 ∧
    (newIssue demoDB 1 "" "" "" 200 0 none).title = "" ∧
    (newIssue demoDB 1 "" "" "" 200 0 none).category = "" ∧
    get_issues demoParse demoDist demoDB
      { lat := some "200", lon := some "0", radius := none,
        category := none, status := none } = .ok [] :=
  ⟨rfl, rfl, rfl, rfl, by decide⟩

/-- C5 amended: neither operation validates coordinate ranges or
emptiness.  Creation succeeds whenever the required fields are present
and the coordinates parse as floats, whatever their values, storing
them as given; it fails with a 400 only on a missing field or an
unparseable coordinate.  The listing takes the invalid-coordinates 400
branch only for missing or unparseable lat/lon, so a parseable
out-of-range value passes the query boundary unrejected. -/
theorem validation_gap (parse : String → Option Rat) (db : DB) (uid : Nat)
    (form : ReportForm) (t d c : String) (la lo : Rat)
    (ht : form.title = some t) (hd : form.description = some d)
    (hc : form.category = some c) (hla : form.latitude.bind parse = some la)
    (hlo : form.longitude.bind parse = some lo) :
    (∃ issue, (report_issue parse db uid form false).2 = .ok issue ∧
      issue.latitude = la ∧ issue.longitude = lo ∧
      issue.title = t ∧ issue.category = c) ∧
    (∀ (dist : Rat → Rat → Rat → Rat → Rat) (args : QueryArgs) (x y : Rat),
      args.lat.bind parse = some x → args.lon.bind parse = some y →
      get_issues parse dist db args ≠ .error (.badRequest "Invalid coordinates")) := by
  refine ⟨?_, ?_⟩
  · refine ⟨newIssue db uid t d c la lo form.is_anonymous, ?_, rfl, rfl, rfl, rfl⟩
    rw [report_issue_ok parse db uid form t d c la lo ht hd hc hla hlo]
  · intro dist args x y hx hy hcontra
    rcases (get_issues_400_iff parse dist db args).mp hcontra with h1 | h1
    · rw [hx] at h1
      exact Option.noConfusion h1
    · rw [hy] at h1
      exact Option.noConfusion h1

/-- Witness for C5 amended: the bad form with latitude 200 and empty
title is accepted, and a listing with lat parameter 200 is not the
invalid-coordinates 400. -/
theorem validation_gap_witness :
    badForm.title = some "" ∧ badForm.latitude.bind demoParse = some 200 ∧
    ((∃ issue, (report_issue demoParse demoDB 1 badForm false).2 = .ok issue ∧
      issue.latitude = 200 ∧ issue.longitude = 0 ∧
      issue.title = "" ∧ issue.category = "") ∧
     (∀ (dist : Rat → Rat → Rat → Rat → Rat) (args : QueryArgs) (x y : Rat),
      args.lat.bind demoParse = some x → args.lon.bind demoParse = some y →
      get_issues demoParse dist demoDB args ≠
        .error (.badRequest "Invalid coordinates"))) :=
  ⟨rfl, rfl,
   validation_gap demoParse demoDB 1 badForm "" "" "" 200 0 rfl rfl rfl rfl rfl⟩

end CivicTrack
